import Mathlib

/-!
Shallow embedding of the master-data CRUD screens of this repository
(Organization, Subsidiary, Location, Designation).

The repository contains several near-duplicate revisions of each page
component.  Each revision is embedded under its own namespace:

* `OrgA`  — OrganizationPage in `src/unnamed/part_005` (first document):
            duplicate checks on `organizationCode` and `tenantCode`.
* `SubA`  — SubsidiaryPage, `src/unnamed/part_005` second document:
            no duplicate check; edit/delete close the view panel.
* `SubB`  — SubsidiaryPage, `src/unnamed/part_005` third document:
            duplicate check on `subsidiaryCode`; no view-panel close.
* `LocA`  — `src/src/pages/LocationPage.tsx`: duplicate check present, but
            `setError` is never destructured from `useForm`, so the
            duplicate branch throws a ReferenceError at run time.
* `LocB`  — LocationPage in `src/unnamed/part_006`: no duplicate check;
            edit/delete close the view panel.
* `DesA`  — DesignationPage, `src/src/pages/DesignationPage.tsx` first
            document: no duplicate check; edit/delete close the view panel.
* `DesB`  — DesignationPage, second document of the same file: duplicate
            check on `designationCode`; no view-panel close.

Records are flat structures with a `Nat` surrogate id; all other fields are
strings, exactly as in `src/unnamed/part_000` (`types.ts`).  The pages keep
their state in React `useState` hooks; we model one page's state as a
structure holding the record list (`rows`), the editing id, the form-open
flag, the view projection, the react-hook-form buffer (`formValues`) and the
current field errors.  Event handlers become pure state transformers.
-/

/-- Error taxonomy of the specification: `MissingRequiredField` for yup
`required()` failures, `FormatViolation` for `matches` / `email` / `max`
failures, `DuplicateKey` for the manual `setError` calls in `onSubmit`. -/
inductive ErrKind where
  | missingRequired
  | formatViolation
  | duplicateKey
deriving DecidableEq, Repr

/-- One field-level validation error: the form field it is attached to,
its kind, and the user-facing message from the source. -/
structure FieldError where
  field : String
  kind : ErrKind
  message : String
deriving DecidableEq, Repr

/-- Source: `Organization` record, from `types.ts` (`src/unnamed/part_000`). -/
structure Organization where
  id : Nat
  organizationName : String
  organizationCode : String
  registrationNumber : String
  emailId : String
  contactNumber : String
  addressLine1 : String
  city : String
  pinCode : String
  tenantCode : String
  status : String
  financialYearStart : String
deriving DecidableEq, Repr

/-- Source: `Subsidiary` record, from `types.ts`. -/
structure Subsidiary where
  id : Nat
  subsidiaryName : String
  subsidiaryCode : String
  subsidiaryDescription : String
  locationCode : String
  organizationCode : String
deriving DecidableEq, Repr

/-- Source: `Location` record, from `types.ts`. -/
structure Location where
  id : Nat
  locationCode : String
  locationName : String
  regionCode : String
  countryCode : String
  stateCode : String
  city : String
  pincode : String
deriving DecidableEq, Repr

/-- Source: `Designation` record, from `types.ts`. -/
structure Designation where
  id : Nat
  designationCode : String
  designationName : String
deriving DecidableEq, Repr

/-- react-hook-form buffer for the Organization form (`OrganizationFormValues`). -/
structure OrganizationFormValues where
  organizationName : String
  organizationCode : String
  registrationNumber : String
  emailId : String
  contactNumber : String
  addressLine1 : String
  city : String
  pinCode : String
  tenantCode : String
  status : String
  financialYearStart : String
deriving DecidableEq, Repr

/-- react-hook-form buffer for the Subsidiary form (`SubsidiaryFormValues`). -/
structure SubsidiaryFormValues where
  subsidiaryName : String
  subsidiaryCode : String
  subsidiaryDescription : String
  locationCode : String
  organizationCode : String
deriving DecidableEq, Repr

/-- react-hook-form buffer for the Location form (`LocationFormValues`). -/
structure LocationFormValues where
  locationCode : String
  locationName : String
  regionCode : String
  countryCode : String
  stateCode : String
  city : String
  pincode : String
deriving DecidableEq, Repr

/-- react-hook-form buffer for the Designation form (`DesignationFormValues`). -/
structure DesignationFormValues where
  designationCode : String
  designationName : String
deriving DecidableEq, Repr

/-- The `defaultValues` passed to `useForm` on the Organization page:
every field the empty string. -/
def OrganizationFormValues.defaults : OrganizationFormValues :=
  ⟨"", "", "", "", "", "", "", "", "", "", ""⟩

/-- The `defaultValues` of the Subsidiary form. -/
def SubsidiaryFormValues.defaults : SubsidiaryFormValues :=
  ⟨"", "", "", "", ""⟩

/-- The `defaultValues` of the Location form. -/
def LocationFormValues.defaults : LocationFormValues :=
  ⟨"", "", "", "", "", "", ""⟩

/-- The `defaultValues` of the Designation form. -/
def DesignationFormValues.defaults : DesignationFormValues :=
  ⟨"", ""⟩

/-- The single seed Organization record of `src/api/organizations`
(`src/unnamed/part_003`). -/
def aalOrg : Organization :=
  { id := 1
    organizationName := "Automotive Axles Limited"
    organizationCode := "AAL"
    registrationNumber := "7797779699"
    emailId := "info@autoaxle.com"
    contactNumber := "9821719750"
    addressLine1 := "Hootagalli Industrial Area, Off Hunsur Road,"
    city := "Mysore"
    pinCode := ""
    tenantCode := "AAL"
    status := "Inactive"
    financialYearStart := "Month 4" }

/-- Seed data `initialOrganizations` from `src/api/organizations`
(`src/unnamed/part_003`). -/
def initialOrganizations : List Organization := [aalOrg]

/-- The single seed Location record of `src/api/locations`
(`src/unnamed/part_003`). -/
def aalLoc : Location :=
  { id := 1
    locationCode := "AALMYS"
    locationName := "PANTNAGAR"
    regionCode := "UK"
    countryCode := "IN"
    stateCode := "UK"
    city := "PANTNAGAR"
    pincode := "12345" }

/-- Seed data `initialLocations` from `src/api/locations`
(`src/unnamed/part_003`). -/
def initialLocations : List Location := [aalLoc]

/-- Seed data `initialDesignations` from `src/api/Designation`
(`src/unnamed/part_003`). -/
def initialDesignations : List Designation :=
  [ { id := 1, designationCode := "DRV", designationName := "Driver" },
    { id := 2, designationCode := "SEC", designationName := "Security" } ]

/-- JavaScript `String.prototype.toLowerCase()` on the ASCII data occurring
here: lower-case every character.  (Structural-recursion version of
`String.toLower`, so that concrete instances evaluate in the kernel.) -/
def jsToLower (s : String) : String := ⟨s.data.map Char.toLower⟩

/-- Meaning of the yup regex `^[0-9]{lo,hi}$`: the whole string consists of
`lo` to `hi` ASCII digits. -/
def digitsBetween (lo hi : Nat) (s : String) : Bool :=
  decide (lo ≤ s.length) && decide (s.length ≤ hi) && s.data.all Char.isDigit

/-- Modelled from the spec: yup's `.email()` test lives in the yup library,
which is not part of this repository's sources; the spec asks only for
"email shape for email fields".  We model an email shape as
`local@domain` with exactly one `@`, a nonempty local part and a nonempty
domain that contains a dot. -/
def emailShape (s : String) : Bool :=
  let cs := s.data
  let loc := cs.takeWhile (fun c => c != '@')
  let dom := (cs.dropWhile (fun c => c != '@')).drop 1
  (cs.count '@' == 1) && !loc.isEmpty && !dom.isEmpty && dom.contains '.'

/-- yup `string().required(msg)`: fails exactly on the empty string
(all form fields default to `""`, never `undefined`). -/
def requiredCheck (field msg : String) (v : String) : List FieldError :=
  if v = "" then [⟨field, .missingRequired, msg⟩] else []

/-- A required string field with an additional format test (`matches`,
`email`, or `max`): the required failure wins on the empty string,
otherwise the format test runs. -/
def requiredFmtCheck (field reqMsg : String) (ok : String → Bool)
    (fmtMsg : String) (v : String) : List FieldError :=
  if v = "" then [⟨field, .missingRequired, reqMsg⟩]
  else if ok v then [] else [⟨field, .formatViolation, fmtMsg⟩]

/-- Source: `organizationSchema` (first document of `src/unnamed/part_005`): all
fields required; `emailId` must be an email; `contactNumber` matches
`^[0-9]{8,15}$`; `pinCode` matches `^[0-9]{5,6}$`. -/
def validateOrganization (b : OrganizationFormValues) : List FieldError :=
  requiredCheck "organizationName" "Organization Name is required" b.organizationName ++
  requiredCheck "organizationCode" "Organization Code is required" b.organizationCode ++
  requiredCheck "registrationNumber" "Registration Number is required" b.registrationNumber ++
  requiredFmtCheck "emailId" "Email ID is required" emailShape "Invalid email" b.emailId ++
  requiredFmtCheck "contactNumber" "Contact Number is required" (digitsBetween 8 15)
    "Contact must be 8–15 digits" b.contactNumber ++
  requiredCheck "addressLine1" "Address Line 1 is required" b.addressLine1 ++
  requiredCheck "city" "City is required" b.city ++
  requiredFmtCheck "pinCode" "Pin Code is required" (digitsBetween 5 6)
    "Pin Code must be 5–6 digits" b.pinCode ++
  requiredCheck "tenantCode" "Tenant Code is required" b.tenantCode ++
  requiredCheck "status" "Status is required" b.status ++
  requiredCheck "financialYearStart" "Financial Year Start is required" b.financialYearStart

/-- Source: `subsidiarySchema` (`src/unnamed/part_005`): all fields required;
`subsidiaryCode` at most 20 characters (`max(20)`). -/
def validateSubsidiary (b : SubsidiaryFormValues) : List FieldError :=
  requiredCheck "subsidiaryName" "Subsidiary Name is required" b.subsidiaryName ++
  requiredFmtCheck "subsidiaryCode" "Subsidiary Code is required"
    (fun v => decide (v.length ≤ 20)) "Max 20 characters" b.subsidiaryCode ++
  requiredCheck "subsidiaryDescription" "Subsidiary Description is required" b.subsidiaryDescription ++
  requiredCheck "locationCode" "Location Code is required" b.locationCode ++
  requiredCheck "organizationCode" "Organization Code is required" b.organizationCode

/-- Source: `locationSchema` (`src/src/pages/LocationPage.tsx` and
`src/unnamed/part_006`): all fields required; `pincode` matches
`^[0-9]{5,6}$`. -/
def validateLocation (b : LocationFormValues) : List FieldError :=
  requiredCheck "locationCode" "Location Code is required" b.locationCode ++
  requiredCheck "locationName" "Location Name is required" b.locationName ++
  requiredCheck "regionCode" "Region Code is required" b.regionCode ++
  requiredCheck "countryCode" "Country Code is required" b.countryCode ++
  requiredCheck "stateCode" "State Code is required" b.stateCode ++
  requiredCheck "city" "City is required" b.city ++
  requiredFmtCheck "pincode" "Pincode is required" (digitsBetween 5 6)
    "Pincode must be 5–6 digits" b.pincode

/-- Source: `designationSchema` (`src/src/pages/DesignationPage.tsx`): both fields
required, no format rules. -/
def validateDesignation (b : DesignationFormValues) : List FieldError :=
  requiredCheck "designationCode" "Designation Code is required" b.designationCode ++
  requiredCheck "designationName" "Designation Name is required" b.designationName

/-- The id chosen for a freshly created record:
`rows.length > 0 ? Math.max(...rows.map(r => r.id)) + 1 : 1`. -/
def nextId (ids : List Nat) : Nat :=
  if ids.length > 0 then ids.foldr Nat.max 0 + 1 else 1

/-- Prefill buffer for editing an Organization row (the `reset({...})` in the
`useEffect` on `editingRow`). -/
def Organization.toFormValues (r : Organization) : OrganizationFormValues :=
  ⟨r.organizationName, r.organizationCode, r.registrationNumber, r.emailId,
   r.contactNumber, r.addressLine1, r.city, r.pinCode, r.tenantCode,
   r.status, r.financialYearStart⟩

/-- Prefill buffer for editing a Subsidiary row. -/
def Subsidiary.toFormValues (r : Subsidiary) : SubsidiaryFormValues :=
  ⟨r.subsidiaryName, r.subsidiaryCode, r.subsidiaryDescription,
   r.locationCode, r.organizationCode⟩

/-- Prefill buffer for editing a Location row. -/
def Location.toFormValues (r : Location) : LocationFormValues :=
  ⟨r.locationCode, r.locationName, r.regionCode, r.countryCode,
   r.stateCode, r.city, r.pincode⟩

/-- Prefill buffer for editing a Designation row. -/
def Designation.toFormValues (r : Designation) : DesignationFormValues :=
  ⟨r.designationCode, r.designationName⟩

/-- State of the Organization page: the `useState` hooks `rows`,
`editingId`, `isFormOpen`, `viewOrg`, plus the react-hook-form buffer and
its field errors. -/
structure OrgState where
  rows : List Organization
  editingId : Option Nat
  isFormOpen : Bool
  viewOrg : Option Organization
  formValues : OrganizationFormValues
  fieldErrors : List FieldError
deriving DecidableEq, Repr

/-- State of the Subsidiary page. -/
structure SubState where
  rows : List Subsidiary
  editingId : Option Nat
  isFormOpen : Bool
  viewSub : Option Subsidiary
  formValues : SubsidiaryFormValues
  fieldErrors : List FieldError
deriving DecidableEq, Repr

/-- State of the Location page. -/
structure LocState where
  rows : List Location
  editingId : Option Nat
  isFormOpen : Bool
  viewLocation : Option Location
  formValues : LocationFormValues
  fieldErrors : List FieldError
deriving DecidableEq, Repr

/-- State of the Designation page. -/
structure DesState where
  rows : List Designation
  editingId : Option Nat
  isFormOpen : Bool
  viewDesignation : Option Designation
  formValues : DesignationFormValues
  fieldErrors : List FieldError
deriving DecidableEq, Repr

namespace OrgA

/-- Source: `const newRow: Organization = { id: rows.length > 0 ?
Math.max(...rows.map(r => r.id)) + 1 : 1, ...data }`. -/
def newRow (rows : List Organization) (data : OrganizationFormValues) : Organization :=
  { id := nextId (rows.map (·.id))
    organizationName := data.organizationName
    organizationCode := data.organizationCode
    registrationNumber := data.registrationNumber
    emailId := data.emailId
    contactNumber := data.contactNumber
    addressLine1 := data.addressLine1
    city := data.city
    pinCode := data.pinCode
    tenantCode := data.tenantCode
    status := data.status
    financialYearStart := data.financialYearStart }

/-- One row of the update `map`: `row.id === editingId ?
{ ...row, ...data, organizationCode: row.organizationCode } : row`. -/
def updRow (i : Nat) (data : OrganizationFormValues) (row : Organization) : Organization :=
  if row.id = i then
    { id := row.id
      organizationName := data.organizationName
      organizationCode := row.organizationCode
      registrationNumber := data.registrationNumber
      emailId := data.emailId
      contactNumber := data.contactNumber
      addressLine1 := data.addressLine1
      city := data.city
      pinCode := data.pinCode
      tenantCode := data.tenantCode
      status := data.status
      financialYearStart := data.financialYearStart }
  else row

/-- Source: `rows.some(row => row.organizationCode.toLowerCase() ===
data.organizationCode.toLowerCase() && row.id !== editingId)`. -/
def orgCodeDuplicate (rows : List Organization) (data : OrganizationFormValues)
    (editingId : Option Nat) : Bool :=
  rows.any fun row =>
    (jsToLower row.organizationCode == jsToLower data.organizationCode) &&
    decide (some row.id ≠ editingId)

/-- Source: `rows.some(row => row.tenantCode.toLowerCase() ===
data.tenantCode.toLowerCase() && row.id !== editingId)`. -/
def tenantDuplicate (rows : List Organization) (data : OrganizationFormValues)
    (editingId : Option Nat) : Bool :=
  rows.any fun row =>
    (jsToLower row.tenantCode == jsToLower data.tenantCode) &&
    decide (some row.id ≠ editingId)

/-- Source: `onSubmit` of the OrganizationPage in `src/unnamed/part_005`:
reject on a duplicate `organizationCode`, then on a duplicate `tenantCode`;
otherwise create (append `newRow`) or update in place, then close and reset
the form. -/
def onSubmit (st : OrgState) (data : OrganizationFormValues) : OrgState :=
  if orgCodeDuplicate st.rows data st.editingId then
    { st with fieldErrors := [⟨"organizationCode", .duplicateKey,
        "Organization Code already exists. It must be unique."⟩] }
  else if tenantDuplicate st.rows data st.editingId then
    { st with fieldErrors := [⟨"tenantCode", .duplicateKey,
        "Tenant Code already exists. It must be unique."⟩] }
  else
    let st' :=
      match st.editingId with
      | none => { st with rows := st.rows ++ [newRow st.rows data] }
      | some i => { st with rows := st.rows.map (updRow i data) }
    { st' with editingId := none, formValues := .defaults, fieldErrors := [],
               isFormOpen := false }

/-- Source: `handleSubmit(onSubmit)`: the yup resolver validates the buffer; on
failure the errors are surfaced and `onSubmit` is not called; on success the
previous errors are cleared and `onSubmit` runs on the validated values. -/
def submit (st : OrgState) : OrgState :=
  let errs := validateOrganization st.formValues
  if errs.isEmpty then onSubmit { st with fieldErrors := [] } st.formValues
  else { st with fieldErrors := errs }

/-- Source: `handleAddNew`: clear `editingId`, reset the buffer, open the form. -/
def handleAddNew (st : OrgState) : OrgState :=
  { st with editingId := none, formValues := .defaults, fieldErrors := [],
            isFormOpen := true }

/-- Source: `handleEdit(row)`: set `editingId`, open the form; the `useEffect` on
`editingRow` then prefills the buffer from the stored row.  The view modal
is NOT closed here. -/
def handleEdit (st : OrgState) (row : Organization) : OrgState :=
  let st := { st with editingId := some row.id, isFormOpen := true }
  match st.rows.find? (fun r => decide (some r.id = st.editingId)) with
  | some r => { st with formValues := r.toFormValues, fieldErrors := [] }
  | none => { st with formValues := .defaults, fieldErrors := [] }

/-- Source: `handleDelete(id)` guarded by `window.confirm`: filter the row out;
if it was being edited, close and reset the form.  The view modal is NOT
closed. -/
def handleDelete (st : OrgState) (confirmed : Bool) (i : Nat) : OrgState :=
  if confirmed then
    let st := { st with rows := st.rows.filter (fun row => row.id != i) }
    if st.editingId = some i then
      { st with editingId := none, formValues := .defaults, fieldErrors := [],
                isFormOpen := false }
    else st
  else st

end OrgA

namespace SubA

/-- Create step of the second `part_005` SubsidiaryPage (no duplicate check). -/
def newRow (rows : List Subsidiary) (data : SubsidiaryFormValues) : Subsidiary :=
  { id := nextId (rows.map (·.id))
    subsidiaryName := data.subsidiaryName
    subsidiaryCode := data.subsidiaryCode
    subsidiaryDescription := data.subsidiaryDescription
    locationCode := data.locationCode
    organizationCode := data.organizationCode }

/-- Source: `{ ...row, ...data, subsidiaryCode: row.subsidiaryCode }` on a matching id. -/
def updRow (i : Nat) (data : SubsidiaryFormValues) (row : Subsidiary) : Subsidiary :=
  if row.id = i then
    { id := row.id
      subsidiaryName := data.subsidiaryName
      subsidiaryCode := row.subsidiaryCode
      subsidiaryDescription := data.subsidiaryDescription
      locationCode := data.locationCode
      organizationCode := data.organizationCode }
  else row

/-- Source: `onSubmit` of the SubsidiaryPage without duplicate check: create or
update, then close and reset the form. -/
def onSubmit (st : SubState) (data : SubsidiaryFormValues) : SubState :=
  let st' :=
    match st.editingId with
    | none => { st with rows := st.rows ++ [newRow st.rows data] }
    | some i => { st with rows := st.rows.map (updRow i data) }
  { st' with editingId := none, formValues := .defaults, fieldErrors := [],
             isFormOpen := false }

/-- Source: `handleSubmit(onSubmit)` with the yup resolver. -/
def submit (st : SubState) : SubState :=
  let errs := validateSubsidiary st.formValues
  if errs.isEmpty then onSubmit { st with fieldErrors := [] } st.formValues
  else { st with fieldErrors := errs }

/-- Source: `handleEdit(row)`: also hides the view panel (`setViewSub(null)`). -/
def handleEdit (st : SubState) (row : Subsidiary) : SubState :=
  let st := { st with editingId := some row.id, isFormOpen := true,
                      viewSub := none }
  match st.rows.find? (fun r => decide (some r.id = st.editingId)) with
  | some r => { st with formValues := r.toFormValues, fieldErrors := [] }
  | none => { st with formValues := .defaults, fieldErrors := [] }

/-- Source: `handleDelete(id)`: remove the row; close the form if it was being
edited; close the view panel if it was showing the deleted row. -/
def handleDelete (st : SubState) (confirmed : Bool) (i : Nat) : SubState :=
  if confirmed then
    let st := { st with rows := st.rows.filter (fun row => row.id != i) }
    let st :=
      if st.editingId = some i then
        { st with editingId := none, formValues := .defaults,
                  fieldErrors := [], isFormOpen := false }
      else st
    match st.viewSub with
    | some v => if v.id = i then { st with viewSub := none } else st
    | none => st
  else st

end SubA

namespace SubB

/-- Source: `rows.some(row => row.subsidiaryCode.toLowerCase() ===
data.subsidiaryCode.toLowerCase() && row.id !== editingId)`. -/
def isDuplicate (rows : List Subsidiary) (data : SubsidiaryFormValues)
    (editingId : Option Nat) : Bool :=
  rows.any fun row =>
    (jsToLower row.subsidiaryCode == jsToLower data.subsidiaryCode) &&
    decide (some row.id ≠ editingId)

/-- Source: `onSubmit` of the third `part_005` SubsidiaryPage: duplicate check on
`subsidiaryCode`, then create or update (code kept fixed), close and reset. -/
def onSubmit (st : SubState) (data : SubsidiaryFormValues) : SubState :=
  if isDuplicate st.rows data st.editingId then
    { st with fieldErrors := [⟨"subsidiaryCode", .duplicateKey,
        "Subsidiary Code already exists. It must be unique."⟩] }
  else
    let st' :=
      match st.editingId with
      | none => { st with rows := st.rows ++ [SubA.newRow st.rows data] }
      | some i => { st with rows := st.rows.map (SubA.updRow i data) }
    { st' with editingId := none, formValues := .defaults, fieldErrors := [],
               isFormOpen := false }

/-- Source: `handleSubmit(onSubmit)` with the yup resolver. -/
def submit (st : SubState) : SubState :=
  let errs := validateSubsidiary st.formValues
  if errs.isEmpty then onSubmit { st with fieldErrors := [] } st.formValues
  else { st with fieldErrors := errs }

/-- Source: `handleEdit(row)` of this variant does NOT touch `viewSubsidiary`. -/
def handleEdit (st : SubState) (row : Subsidiary) : SubState :=
  let st := { st with editingId := some row.id, isFormOpen := true }
  match st.rows.find? (fun r => decide (some r.id = st.editingId)) with
  | some r => { st with formValues := r.toFormValues, fieldErrors := [] }
  | none => { st with formValues := .defaults, fieldErrors := [] }

/-- Source: `handleDelete(id)` of this variant does NOT close the view modal. -/
def handleDelete (st : SubState) (confirmed : Bool) (i : Nat) : SubState :=
  if confirmed then
    let st := { st with rows := st.rows.filter (fun row => row.id != i) }
    if st.editingId = some i then
      { st with editingId := none, formValues := .defaults, fieldErrors := [],
                isFormOpen := false }
    else st
  else st

end SubB

namespace LocA

/-- Source: `rows.some(row => row.locationCode.toLowerCase() ===
data.locationCode.toLowerCase() && row.id !== editingId)`
(`src/src/pages/LocationPage.tsx`). -/
def isDuplicate (rows : List Location) (data : LocationFormValues)
    (editingId : Option Nat) : Bool :=
  rows.any fun row =>
    (jsToLower row.locationCode == jsToLower data.locationCode) &&
    decide (some row.id ≠ editingId)

/-- Create step: `{ id: rows.length > 0 ? Math.max(...) + 1 : 1, ...data }`. -/
def newRow (rows : List Location) (data : LocationFormValues) : Location :=
  { id := nextId (rows.map (·.id))
    locationCode := data.locationCode
    locationName := data.locationName
    regionCode := data.regionCode
    countryCode := data.countryCode
    stateCode := data.stateCode
    city := data.city
    pincode := data.pincode }

/-- Source: `{ ...row, ...data, locationCode: row.locationCode }` on a matching id. -/
def updRow (i : Nat) (data : LocationFormValues) (row : Location) : Location :=
  if row.id = i then
    { id := row.id
      locationCode := row.locationCode
      locationName := data.locationName
      regionCode := data.regionCode
      countryCode := data.countryCode
      stateCode := data.stateCode
      city := data.city
      pincode := data.pincode }
  else row

/-- Source: `onSubmit` of `src/src/pages/LocationPage.tsx`.  In the duplicate
branch the source calls `setError("locationCode", ...)`, but `setError` is
never destructured from `useForm` in this file, so the call throws a
ReferenceError before any state is touched.  The returned `Bool` records
whether that exception was thrown; the returned state holds the `useState`
updates performed before the throw (none, in the duplicate branch). -/
def onSubmit (st : LocState) (data : LocationFormValues) : LocState × Bool :=
  if isDuplicate st.rows data st.editingId then
    (st, true)
  else
    let st' :=
      match st.editingId with
      | none => { st with rows := st.rows ++ [newRow st.rows data] }
      | some i => { st with rows := st.rows.map (updRow i data) }
    ({ st' with editingId := none, formValues := .defaults, fieldErrors := [],
                isFormOpen := false }, false)

/-- Source: `handleSubmit(onSubmit)` with the yup resolver; the `Bool` is the
ReferenceError flag of `onSubmit`. -/
def submit (st : LocState) : LocState × Bool :=
  let errs := validateLocation st.formValues
  if errs.isEmpty then onSubmit { st with fieldErrors := [] } st.formValues
  else ({ st with fieldErrors := errs }, false)

/-- Source: `handleEdit(row)` of this variant does NOT close the view modal. -/
def handleEdit (st : LocState) (row : Location) : LocState :=
  let st := { st with editingId := some row.id, isFormOpen := true }
  match st.rows.find? (fun r => decide (some r.id = st.editingId)) with
  | some r => { st with formValues := r.toFormValues, fieldErrors := [] }
  | none => { st with formValues := .defaults, fieldErrors := [] }

/-- Source: `handleDelete(id)` of this variant does NOT close the view modal. -/
def handleDelete (st : LocState) (confirmed : Bool) (i : Nat) : LocState :=
  if confirmed then
    let st := { st with rows := st.rows.filter (fun row => row.id != i) }
    if st.editingId = some i then
      { st with editingId := none, formValues := .defaults, fieldErrors := [],
                isFormOpen := false }
    else st
  else st

end LocA

namespace LocB

/-- Source: `onSubmit` of the `src/unnamed/part_006` LocationPage: NO duplicate
check; create or update (locationCode kept fixed), close and reset. -/
def onSubmit (st : LocState) (data : LocationFormValues) : LocState :=
  let st' :=
    match st.editingId with
    | none => { st with rows := st.rows ++ [LocA.newRow st.rows data] }
    | some i => { st with rows := st.rows.map (LocA.updRow i data) }
  { st' with editingId := none, formValues := .defaults, fieldErrors := [],
             isFormOpen := false }

/-- Source: `handleSubmit(onSubmit)` with the yup resolver. -/
def submit (st : LocState) : LocState :=
  let errs := validateLocation st.formValues
  if errs.isEmpty then onSubmit { st with fieldErrors := [] } st.formValues
  else { st with fieldErrors := errs }

/-- Source: `handleEdit(row)`: also `setViewLocation(null)`. -/
def handleEdit (st : LocState) (row : Location) : LocState :=
  let st := { st with editingId := some row.id, isFormOpen := true,
                      viewLocation := none }
  match st.rows.find? (fun r => decide (some r.id = st.editingId)) with
  | some r => { st with formValues := r.toFormValues, fieldErrors := [] }
  | none => { st with formValues := .defaults, fieldErrors := [] }

/-- Source: `handleDelete(id)`: remove the row; close the form if editing it; close
the view panel if it was showing the deleted row. -/
def handleDelete (st : LocState) (confirmed : Bool) (i : Nat) : LocState :=
  if confirmed then
    let st := { st with rows := st.rows.filter (fun row => row.id != i) }
    let st :=
      if st.editingId = some i then
        { st with editingId := none, formValues := .defaults,
                  fieldErrors := [], isFormOpen := false }
      else st
    match st.viewLocation with
    | some v => if v.id = i then { st with viewLocation := none } else st
    | none => st
  else st

end LocB

namespace DesA

/-- Create step of the first DesignationPage document. -/
def newRow (rows : List Designation) (data : DesignationFormValues) : Designation :=
  { id := nextId (rows.map (·.id))
    designationCode := data.designationCode
    designationName := data.designationName }

/-- Source: `{ ...row, ...data, designationCode: row.designationCode }` on a
matching id. -/
def updRow (i : Nat) (data : DesignationFormValues) (row : Designation) : Designation :=
  if row.id = i then
    { id := row.id
      designationCode := row.designationCode
      designationName := data.designationName }
  else row

/-- Row-list effect of a create in `onSubmit` (`editingId === null`). -/
def createRows (rows : List Designation) (data : DesignationFormValues) : List Designation :=
  rows ++ [newRow rows data]

/-- Row-list effect of an update in `onSubmit` (`editingId === id`). -/
def updateRows (rows : List Designation) (i : Nat) (data : DesignationFormValues) : List Designation :=
  rows.map (updRow i data)

/-- Row-list effect of a confirmed `handleDelete(id)`. -/
def deleteRows (rows : List Designation) (i : Nat) : List Designation :=
  rows.filter (fun row => row.id != i)

/-- Source: `onSubmit` of the first DesignationPage document: NO duplicate check. -/
def onSubmit (st : DesState) (data : DesignationFormValues) : DesState :=
  let st' :=
    match st.editingId with
    | none => { st with rows := createRows st.rows data }
    | some i => { st with rows := updateRows st.rows i data }
  { st' with editingId := none, formValues := .defaults, fieldErrors := [],
             isFormOpen := false }

/-- Source: `handleSubmit(onSubmit)` with the yup resolver. -/
def submit (st : DesState) : DesState :=
  let errs := validateDesignation st.formValues
  if errs.isEmpty then onSubmit { st with fieldErrors := [] } st.formValues
  else { st with fieldErrors := errs }

/-- Source: `handleEdit(row)`: also `setViewDesignation(null)`. -/
def handleEdit (st : DesState) (row : Designation) : DesState :=
  let st := { st with editingId := some row.id, isFormOpen := true,
                      viewDesignation := none }
  match st.rows.find? (fun r => decide (some r.id = st.editingId)) with
  | some r => { st with formValues := r.toFormValues, fieldErrors := [] }
  | none => { st with formValues := .defaults, fieldErrors := [] }

/-- Source: `handleDelete(id)`: remove the row; close the form if editing it; close
the view panel if it was showing the deleted row. -/
def handleDelete (st : DesState) (confirmed : Bool) (i : Nat) : DesState :=
  if confirmed then
    let st := { st with rows := st.rows.filter (fun row => row.id != i) }
    let st :=
      if st.editingId = some i then
        { st with editingId := none, formValues := .defaults,
                  fieldErrors := [], isFormOpen := false }
      else st
    match st.viewDesignation with
    | some v => if v.id = i then { st with viewDesignation := none } else st
    | none => st
  else st

end DesA

namespace DesB

/-- Source: `rows.some(row => row.designationCode.toLowerCase() ===
data.designationCode.toLowerCase() && row.id !== editingId)`. -/
def isDuplicate (rows : List Designation) (data : DesignationFormValues)
    (editingId : Option Nat) : Bool :=
  rows.any fun row =>
    (jsToLower row.designationCode == jsToLower data.designationCode) &&
    decide (some row.id ≠ editingId)

/-- Source: `onSubmit` of the second DesignationPage document: duplicate check on
`designationCode`, then create or update (code kept fixed), close and
reset. -/
def onSubmit (st : DesState) (data : DesignationFormValues) : DesState :=
  if isDuplicate st.rows data st.editingId then
    { st with fieldErrors := [⟨"designationCode", .duplicateKey,
        "Designation Code already exists. It must be unique."⟩] }
  else
    let st' :=
      match st.editingId with
      | none => { st with rows := st.rows ++ [DesA.newRow st.rows data] }
      | some i => { st with rows := st.rows.map (DesA.updRow i data) }
    { st' with editingId := none, formValues := .defaults, fieldErrors := [],
               isFormOpen := false }

/-- Source: `handleSubmit(onSubmit)` with the yup resolver. -/
def submit (st : DesState) : DesState :=
  let errs := validateDesignation st.formValues
  if errs.isEmpty then onSubmit { st with fieldErrors := [] } st.formValues
  else { st with fieldErrors := errs }

/-- Source: `handleEdit(row)` of this variant does NOT close the view modal. -/
def handleEdit (st : DesState) (row : Designation) : DesState :=
  let st := { st with editingId := some row.id, isFormOpen := true }
  match st.rows.find? (fun r => decide (some r.id = st.editingId)) with
  | some r => { st with formValues := r.toFormValues, fieldErrors := [] }
  | none => { st with formValues := .defaults, fieldErrors := [] }

/-- Source: `handleDelete(id)` of this variant does NOT close the view modal. -/
def handleDelete (st : DesState) (confirmed : Bool) (i : Nat) : DesState :=
  if confirmed then
    let st := { st with rows := st.rows.filter (fun row => row.id != i) }
    if st.editingId = some i then
      { st with editingId := none, formValues := .defaults, fieldErrors := [],
                isFormOpen := false }
    else st
  else st

end DesB

/-- Row-list states of the Designation store reachable from the seed by any
sequence of create, update and delete operations (the three `setRows`
call sites of the DesignationPage). -/
inductive DesReach : List Designation → Prop where
  | seed : DesReach initialDesignations
  | create (rows : List Designation) (data : DesignationFormValues) :
      DesReach rows → DesReach (DesA.createRows rows data)
  | update (rows : List Designation) (i : Nat) (data : DesignationFormValues) :
      DesReach rows → DesReach (DesA.updateRows rows i data)
  | delete (rows : List Designation) (i : Nat) :
      DesReach rows → DesReach (DesA.deleteRows rows i)

/-- A fully valid Location buffer whose code collides case-insensitively
with the seed record's code `"AALMYS"`. -/
def dupLocationBuffer : LocationFormValues :=
  { locationCode := "aalmys"
    locationName := "Plant 2"
    regionCode := "KA"
    countryCode := "IN"
    stateCode := "KA"
    city := "Mysore"
    pincode := "570018" }

/-- Location page state: seed store, creating (no `editingId`), form open,
buffer `dupLocationBuffer`, no errors. -/
def locDupState : LocState :=
  { rows := initialLocations
    editingId := none
    isFormOpen := true
    viewLocation := none
    formValues := dupLocationBuffer
    fieldErrors := [] }

/-- A fully valid Organization buffer with a fresh `organizationCode` but a
`tenantCode` colliding case-insensitively with the seed's `"AAL"`. -/
def tenantClashBuffer : OrganizationFormValues :=
  { organizationName := "NewCo Ltd"
    organizationCode := "NEWCO"
    registrationNumber := "12345"
    emailId := "contact@newco.com"
    contactNumber := "12345678"
    addressLine1 := "Street 1"
    city := "Mysore"
    pinCode := "570001"
    tenantCode := "aal"
    status := "Active"
    financialYearStart := "Month 4" }

/-- Organization seed row with a different tenant code: differs from
`initialOrganizations` only in the non-natural-key field `tenantCode`. -/
def otherTenantOrg : Organization := { aalOrg with tenantCode := "OTHER" }

/-- Organization page state over the seed store with `tenantClashBuffer`. -/
def orgTenantState : OrgState :=
  { rows := initialOrganizations
    editingId := none
    isFormOpen := true
    viewOrg := none
    formValues := tenantClashBuffer
    fieldErrors := [] }

/-- Same page state over a store that differs only in `tenantCode`. -/
def orgTenantStateAlt : OrgState :=
  { orgTenantState with rows := [otherTenantOrg] }

/-- Organization page state in which the view modal shows the seed record
and nothing is being edited. -/
def orgViewingState : OrgState :=
  { rows := initialOrganizations
    editingId := none
    isFormOpen := false
    viewOrg := some aalOrg
    formValues := .defaults
    fieldErrors := [] }

/-- Location page state (LocationPage.tsx) in which the view modal shows
the seed record. -/
def locViewingState : LocState :=
  { rows := initialLocations
    editingId := none
    isFormOpen := false
    viewLocation := some aalLoc
    formValues := .defaults
    fieldErrors := [] }

/-- A Location buffer with a 4-digit pincode, otherwise valid
(spec scenario: pincode `"1234"`). -/
def shortPincodeBuffer : LocationFormValues :=
  { dupLocationBuffer with locationCode := "NEW1", pincode := "1234" }

/-- The same buffer with a 6-digit pincode (spec scenario: `"123456"`). -/
def okPincodeBuffer : LocationFormValues :=
  { dupLocationBuffer with locationCode := "NEW1", pincode := "123456" }

/-- Spec scenario (Organization): edit record 1 and submit with
`organizationCode` changed to `"XYZ"`. -/
def xyzEditBuffer : OrganizationFormValues :=
  { aalOrg.toFormValues with organizationCode := "XYZ" }

/-- Organization page state editing the seed record with `xyzEditBuffer`. -/
def orgEditState : OrgState :=
  { rows := initialOrganizations
    editingId := some 1
    isFormOpen := true
    viewOrg := none
    formValues := xyzEditBuffer
    fieldErrors := [] }

/-- A fully valid Organization buffer with fresh code and tenant. -/
def freshOrgBuffer : OrganizationFormValues :=
  { tenantClashBuffer with tenantCode := "T2" }

/-- The same buffer with an `organizationCode` colliding case-insensitively
with the stored `"AAL"`. -/
def dupOrgBuffer : OrganizationFormValues :=
  { freshOrgBuffer with organizationCode := "aal" }

/-- Organization page state: creating with `freshOrgBuffer`. -/
def orgCreateState : OrgState :=
  { rows := initialOrganizations
    editingId := none
    isFormOpen := true
    viewOrg := none
    formValues := freshOrgBuffer
    fieldErrors := [] }

/-- A concrete Subsidiary record used as a test fixture (the Subsidiary
seed module `src/api/subsidary` is not among the given sources). -/
def demoSub : Subsidiary :=
  { id := 1
    subsidiaryName := "Sub One"
    subsidiaryCode := "S1"
    subsidiaryDescription := "First subsidiary"
    locationCode := "AALMYS"
    organizationCode := "AAL" }

/-- A fully valid Subsidiary buffer with a fresh code. -/
def freshSubBuffer : SubsidiaryFormValues :=
  { subsidiaryName := "Sub Two"
    subsidiaryCode := "S2"
    subsidiaryDescription := "Second subsidiary"
    locationCode := "AALMYS"
    organizationCode := "AAL" }

/-- Subsidiary page state: creating with `freshSubBuffer` over `[demoSub]`. -/
def subCreateState : SubState :=
  { rows := [demoSub]
    editingId := none
    isFormOpen := true
    viewSub := none
    formValues := freshSubBuffer
    fieldErrors := [] }

/-- Spec scenario (Designation): create `{code:"MGR", name:"Manager"}`. -/
def mgrBuffer : DesignationFormValues :=
  { designationCode := "MGR", designationName := "Manager" }

/-- Designation page state: creating with `mgrBuffer` over the seed. -/
def desCreateState : DesState :=
  { rows := initialDesignations
    editingId := none
    isFormOpen := true
    viewDesignation := none
    formValues := mgrBuffer
    fieldErrors := [] }

/-- Spec scenario (Designation): create `{code:"DRV", name:"X"}`, whose code
collides with the stored `"DRV"`. -/
def dupDesBuffer : DesignationFormValues :=
  { designationCode := "DRV", designationName := "X" }

/-- Designation page state: creating with the colliding `dupDesBuffer`. -/
def desDupState : DesState :=
  { desCreateState with formValues := dupDesBuffer }

/-- Location page state: creating with the valid fresh `okPincodeBuffer`. -/
def locCreateState : LocState :=
  { locDupState with formValues := okPincodeBuffer }

/-- Organization page state: editing the seed record with its own values
(re-submit unchanged). -/
def orgResubmitState : OrgState :=
  { rows := initialOrganizations
    editingId := some 1
    isFormOpen := true
    viewOrg := none
    formValues := aalOrg.toFormValues
    fieldErrors := [] }

/-- The buffer of the seed Designation record `DRV`. -/
def drvBuffer : DesignationFormValues := ⟨"DRV", "Driver"⟩

/-- Designation page state: editing seed record 1 with its own values. -/
def desResubmitState : DesState :=
  { rows := initialDesignations
    editingId := some 1
    isFormOpen := true
    viewDesignation := none
    formValues := drvBuffer
    fieldErrors := [] }

theorem mem_le_foldr_max {a : Nat} {l : List Nat} (h : a ∈ l) :
    a ≤ l.foldr Nat.max 0 := by
  induction l with
  | nil => cases h
  | cons b t ih =>
    rcases List.mem_cons.mp h with rfl | h
    · exact Nat.le_max_left _ _
    · exact Nat.le_trans (ih h) (Nat.le_max_right _ _)

theorem lt_nextId {a : Nat} {l : List Nat} (h : a ∈ l) : a < nextId l := by
  have hl : l.length > 0 := List.length_pos.mpr (List.ne_nil_of_mem h)
  unfold nextId
  rw [if_pos hl]
  exact Nat.lt_succ_of_le (mem_le_foldr_max h)

theorem nextId_not_mem (l : List Nat) : nextId l ∉ l :=
  fun h => Nat.lt_irrefl _ (lt_nextId h)

theorem nodup_append_nextId {l : List Nat} (h : l.Nodup) :
    (l ++ [nextId l]).Nodup := by
  rw [List.nodup_append]
  refine ⟨h, List.nodup_singleton _, ?_⟩
  intro a ha hb
  rw [List.mem_singleton] at hb
  subst hb
  exact nextId_not_mem l ha

/-- C1: evaluation of the two Location revisions at a duplicate key.  The
buffer `dupLocationBuffer` (code `"aalmys"`) passes the yup schema and
collides case-insensitively with the stored `"AALMYS"`.  On
`LocationPage.tsx` the duplicate branch is reached but throws (flag `true`)
with the state untouched — in particular no `DuplicateKey` field error is
recorded; on the `part_006` revision there is no duplicate check at all and
a second record with the same key (id 2) is appended. -/
theorem c1_location_duplicate_not_rejected :
    validateLocation dupLocationBuffer = [] ∧
    LocA.isDuplicate initialLocations dupLocationBuffer none = true ∧
    LocA.submit locDupState = (locDupState, true) ∧
    (LocB.submit locDupState).rows.map (fun r => jsToLower r.locationCode) =
      ["aalmys", "aalmys"] := by
  refine ⟨by decide, by decide, by decide, by decide⟩

/-- C4 counterexample: from the Designation seed, deleting record 2 and
creating again reassigns the previously deleted id 2 (the new id is
`max(existing ids) + 1`, which shrinks when the maximal record is
deleted), and the resulting store is reachable. -/
theorem c4_deleted_id_is_reassigned :
    2 ∈ initialDesignations.map (·.id) ∧
    (DesA.deleteRows initialDesignations 2).map (·.id) = [1] ∧
    (DesA.createRows (DesA.deleteRows initialDesignations 2)
        ⟨"MGR", "Manager"⟩).map (·.id) = [1, 2] ∧
    DesReach (DesA.createRows (DesA.deleteRows initialDesignations 2)
        ⟨"MGR", "Manager"⟩) := by
  refine ⟨by decide, by decide, by decide, ?_⟩
  exact DesReach.create _ _ (DesReach.delete _ _ DesReach.seed)

theorem DesA.updRow_id (i : Nat) (data : DesignationFormValues)
    (row : Designation) : (DesA.updRow i data row).id = row.id := by
  unfold DesA.updRow
  split <;> rfl

/-- C4 (amended): in every Designation store state reachable from the seed
by create, update and delete, the record ids are pairwise distinct, and the
id a create would assign next is never the id of a live record.  (The
original claim additionally said a deleted id is never reassigned; that
part is refuted by the counterexample.) -/
theorem c4_reachable_ids_nodup (rows : List Designation) (h : DesReach rows) :
    (rows.map (·.id)).Nodup ∧ nextId (rows.map (·.id)) ∉ rows.map (·.id) := by
  refine ⟨?_, nextId_not_mem _⟩
  induction h with
  | seed => decide
  | create rows data _ ih =>
    have : (DesA.createRows rows data).map (·.id) =
        rows.map (·.id) ++ [nextId (rows.map (·.id))] := by
      simp [DesA.createRows, DesA.newRow]
    rw [this]
    exact nodup_append_nextId ih
  | update rows i data _ ih =>
    have : (DesA.updateRows rows i data).map (·.id) = rows.map (·.id) := by
      simp [DesA.updateRows, List.map_map]
      intro a _
      exact DesA.updRow_id i data a
    rw [this]
    exact ih
  | delete rows i _ ih =>
    exact ((List.filter_sublist rows).map (·.id)).nodup ih

/-- C4 witness: the invariant instantiated at the seed store itself. -/
theorem c4_reachable_ids_nodup_witness :
    ((initialDesignations.map (·.id)).Nodup ∧
     nextId (initialDesignations.map (·.id)) ∉ initialDesignations.map (·.id)) :=
  c4_reachable_ids_nodup initialDesignations DesReach.seed

/-- C2: on every page, the update written by `onSubmit` maps
`{ ...row, ...data, <key>: row.<key> }` over the store, so the stored
record keeps its surrogate id and its natural-key code while every other
field takes the submitted buffer's value, and rows with a different id are
untouched.  (Entities: Organization, Subsidiary, Location, Designation.) -/
theorem c2_update_preserves_natural_key :
    (∀ (st : OrgState) (data : OrganizationFormValues) (i : Nat),
       st.editingId = some i →
       OrgA.orgCodeDuplicate st.rows data st.editingId = false →
       OrgA.tenantDuplicate st.rows data st.editingId = false →
       (OrgA.onSubmit st data).rows = st.rows.map (OrgA.updRow i data)) ∧
    (∀ (i : Nat) (data : OrganizationFormValues) (row : Organization),
       row.id = i →
       OrgA.updRow i data row =
         { id := row.id
           organizationName := data.organizationName
           organizationCode := row.organizationCode
           registrationNumber := data.registrationNumber
           emailId := data.emailId
           contactNumber := data.contactNumber
           addressLine1 := data.addressLine1
           city := data.city
           pinCode := data.pinCode
           tenantCode := data.tenantCode
           status := data.status
           financialYearStart := data.financialYearStart }) ∧
    (∀ (i : Nat) (data : OrganizationFormValues) (row : Organization),
       row.id ≠ i → OrgA.updRow i data row = row) ∧
    (∀ (st : SubState) (data : SubsidiaryFormValues) (i : Nat),
       st.editingId = some i →
       (SubA.onSubmit st data).rows = st.rows.map (SubA.updRow i data)) ∧
    (∀ (i : Nat) (data : SubsidiaryFormValues) (row : Subsidiary),
       row.id = i →
       SubA.updRow i data row =
         { id := row.id
           subsidiaryName := data.subsidiaryName
           subsidiaryCode := row.subsidiaryCode
           subsidiaryDescription := data.subsidiaryDescription
           locationCode := data.locationCode
           organizationCode := data.organizationCode }) ∧
    (∀ (i : Nat) (data : SubsidiaryFormValues) (row : Subsidiary),
       row.id ≠ i → SubA.updRow i data row = row) ∧
    (∀ (st : LocState) (data : LocationFormValues) (i : Nat),
       st.editingId = some i →
       (LocB.onSubmit st data).rows = st.rows.map (LocA.updRow i data)) ∧
    (∀ (i : Nat) (data : LocationFormValues) (row : Location),
       row.id = i →
       LocA.updRow i data row =
         { id := row.id
           locationCode := row.locationCode
           locationName := data.locationName
           regionCode := data.regionCode
           countryCode := data.countryCode
           stateCode := data.stateCode
           city := data.city
           pincode := data.pincode }) ∧
    (∀ (i : Nat) (data : LocationFormValues) (row : Location),
       row.id ≠ i → LocA.updRow i data row = row) ∧
    (∀ (st : DesState) (data : DesignationFormValues) (i : Nat),
       st.editingId = some i →
       (DesA.onSubmit st data).rows = st.rows.map (DesA.updRow i data)) ∧
    (∀ (i : Nat) (data : DesignationFormValues) (row : Designation),
       row.id = i →
       DesA.updRow i data row =
         { id := row.id
           designationCode := row.designationCode
           designationName := data.designationName }) ∧
    (∀ (i : Nat) (data : DesignationFormValues) (row : Designation),
       row.id ≠ i → DesA.updRow i data row = row) := by
  refine ⟨?_, ?_, ?_, ?_, ?_, ?_, ?_, ?_, ?_, ?_, ?_, ?_⟩
  · intro st data i he h1 h2
    rw [he] at h1 h2
    simp [OrgA.onSubmit, h1, h2, he]
  · intro i data row h
    simp [OrgA.updRow, h]
  · intro i data row h
    simp [OrgA.updRow, h]
  · intro st data i he
    simp [SubA.onSubmit, he]
  · intro i data row h
    simp [SubA.updRow, h]
  · intro i data row h
    simp [SubA.updRow, h]
  · intro st data i he
    simp [LocB.onSubmit, he]
  · intro i data row h
    simp [LocA.updRow, h]
  · intro i data row h
    simp [LocA.updRow, h]
  · intro st data i he
    simp [DesA.onSubmit, DesA.updateRows, he]
  · intro i data row h
    simp [DesA.updRow, h]
  · intro i data row h
    simp [DesA.updRow, h]

/-- C2 witness: the spec's Organization scenario — editing record 1 with
the code changed to `"XYZ"` — and concrete Designation instances. -/
theorem c2_update_preserves_natural_key_witness :
    ((OrgA.onSubmit orgEditState xyzEditBuffer).rows =
       orgEditState.rows.map (OrgA.updRow 1 xyzEditBuffer) ∧
     OrgA.updRow 5 xyzEditBuffer aalOrg = aalOrg ∧
     DesA.updRow 2 mgrBuffer ⟨2, "SEC", "Security"⟩ =
       { id := (⟨2, "SEC", "Security"⟩ : Designation).id
         designationCode := (⟨2, "SEC", "Security"⟩ : Designation).designationCode
         designationName := mgrBuffer.designationName }) :=
  ⟨c2_update_preserves_natural_key.1 orgEditState xyzEditBuffer 1 rfl
      (by decide) (by decide),
   c2_update_preserves_natural_key.2.2.1 5 xyzEditBuffer aalOrg (by decide),
   c2_update_preserves_natural_key.2.2.2.2.2.2.2.2.2.2.1 2 mgrBuffer
      ⟨2, "SEC", "Security"⟩ rfl⟩

/-- C3: on every page, a valid create appends exactly one record: the new
store is the old one with one record appended, the new record's non-id
fields equal the submitted buffer (its prefill buffer is the submitted
buffer), its id is `1` on an empty store, and otherwise exceeds every
existing id (it is `max(existing ids) + 1`). -/
theorem c3_create_appends_fresh_record :
    (∀ (st : DesState) (data : DesignationFormValues),
       st.editingId = none →
       (DesA.onSubmit st data).rows = st.rows ++ [DesA.newRow st.rows data] ∧
       (DesA.newRow st.rows data).toFormValues = data ∧
       (st.rows = [] → (DesA.newRow st.rows data).id = 1) ∧
       (∀ r ∈ st.rows, r.id < (DesA.newRow st.rows data).id)) ∧
    (∀ (st : LocState) (data : LocationFormValues),
       st.editingId = none →
       (LocB.onSubmit st data).rows = st.rows ++ [LocA.newRow st.rows data] ∧
       (LocA.newRow st.rows data).toFormValues = data ∧
       (st.rows = [] → (LocA.newRow st.rows data).id = 1) ∧
       (∀ r ∈ st.rows, r.id < (LocA.newRow st.rows data).id)) ∧
    (∀ (st : SubState) (data : SubsidiaryFormValues),
       st.editingId = none →
       SubB.isDuplicate st.rows data st.editingId = false →
       (SubB.onSubmit st data).rows = st.rows ++ [SubA.newRow st.rows data] ∧
       (SubA.newRow st.rows data).toFormValues = data ∧
       (st.rows = [] → (SubA.newRow st.rows data).id = 1) ∧
       (∀ r ∈ st.rows, r.id < (SubA.newRow st.rows data).id)) ∧
    (∀ (st : OrgState) (data : OrganizationFormValues),
       st.editingId = none →
       OrgA.orgCodeDuplicate st.rows data st.editingId = false →
       OrgA.tenantDuplicate st.rows data st.editingId = false →
       (OrgA.onSubmit st data).rows = st.rows ++ [OrgA.newRow st.rows data] ∧
       (OrgA.newRow st.rows data).toFormValues = data ∧
       (st.rows = [] → (OrgA.newRow st.rows data).id = 1) ∧
       (∀ r ∈ st.rows, r.id < (OrgA.newRow st.rows data).id)) := by
  refine ⟨?_, ?_, ?_, ?_⟩
  · intro st data he
    refine ⟨by simp [DesA.onSubmit, DesA.createRows, he], rfl, ?_, ?_⟩
    · intro h
      simp [DesA.newRow, h, nextId]
    · intro r hr
      exact lt_nextId (List.mem_map_of_mem _ hr)
  · intro st data he
    refine ⟨by simp [LocB.onSubmit, he], rfl, ?_, ?_⟩
    · intro h
      simp [LocA.newRow, h, nextId]
    · intro r hr
      exact lt_nextId (List.mem_map_of_mem _ hr)
  · intro st data he h1
    rw [he] at h1
    refine ⟨by simp [SubB.onSubmit, h1, he], rfl, ?_, ?_⟩
    · intro h
      simp [SubA.newRow, h, nextId]
    · intro r hr
      exact lt_nextId (List.mem_map_of_mem _ hr)
  · intro st data he h1 h2
    rw [he] at h1 h2
    refine ⟨by simp [OrgA.onSubmit, h1, h2, he], rfl, ?_, ?_⟩
    · intro h
      simp [OrgA.newRow, h, nextId]
    · intro r hr
      exact lt_nextId (List.mem_map_of_mem _ hr)

/-- C3 witness: concrete creates on all four pages (Designation `"MGR"`
over the two-record seed, Location and Organization over their seeds,
Subsidiary over `[demoSub]`). -/
theorem c3_create_appends_fresh_record_witness :
    ((DesA.onSubmit desCreateState mgrBuffer).rows =
       desCreateState.rows ++ [DesA.newRow desCreateState.rows mgrBuffer] ∧
     (DesA.newRow desCreateState.rows mgrBuffer).toFormValues = mgrBuffer ∧
     (desCreateState.rows = [] →
       (DesA.newRow desCreateState.rows mgrBuffer).id = 1) ∧
     (∀ r ∈ desCreateState.rows,
       r.id < (DesA.newRow desCreateState.rows mgrBuffer).id)) ∧
    ((LocB.onSubmit locCreateState okPincodeBuffer).rows =
       locCreateState.rows ++ [LocA.newRow locCreateState.rows okPincodeBuffer] ∧
     (LocA.newRow locCreateState.rows okPincodeBuffer).toFormValues = okPincodeBuffer ∧
     (locCreateState.rows = [] →
       (LocA.newRow locCreateState.rows okPincodeBuffer).id = 1) ∧
     (∀ r ∈ locCreateState.rows,
       r.id < (LocA.newRow locCreateState.rows okPincodeBuffer).id)) ∧
    ((SubB.onSubmit subCreateState freshSubBuffer).rows =
       subCreateState.rows ++ [SubA.newRow subCreateState.rows freshSubBuffer] ∧
     (SubA.newRow subCreateState.rows freshSubBuffer).toFormValues = freshSubBuffer ∧
     (subCreateState.rows = [] →
       (SubA.newRow subCreateState.rows freshSubBuffer).id = 1) ∧
     (∀ r ∈ subCreateState.rows,
       r.id < (SubA.newRow subCreateState.rows freshSubBuffer).id)) ∧
    ((OrgA.onSubmit orgCreateState freshOrgBuffer).rows =
       orgCreateState.rows ++ [OrgA.newRow orgCreateState.rows freshOrgBuffer] ∧
     (OrgA.newRow orgCreateState.rows freshOrgBuffer).toFormValues = freshOrgBuffer ∧
     (orgCreateState.rows = [] →
       (OrgA.newRow orgCreateState.rows freshOrgBuffer).id = 1) ∧
     (∀ r ∈ orgCreateState.rows,
       r.id < (OrgA.newRow orgCreateState.rows freshOrgBuffer).id)) :=
  ⟨c3_create_appends_fresh_record.1 desCreateState mgrBuffer rfl,
   c3_create_appends_fresh_record.2.1 locCreateState okPincodeBuffer rfl,
   c3_create_appends_fresh_record.2.2.1 subCreateState freshSubBuffer rfl (by decide),
   c3_create_appends_fresh_record.2.2.2 orgCreateState freshOrgBuffer rfl
     (by decide) (by decide)⟩

/-- C5: on every page, a failed submit never mutates the store and never
closes the form: when the yup resolver fails, or when the resolver passes
and a duplicate key is detected, `rows`, `isFormOpen`, `editingId` and the
buffer are all unchanged.  On LocationPage.tsx the duplicate branch throws
(flag `true`) but still performs no state change. -/
theorem c5_failed_validation_preserves_state :
    (∀ st : OrgState, validateOrganization st.formValues ≠ [] →
       (OrgA.submit st).rows = st.rows ∧
       (OrgA.submit st).isFormOpen = st.isFormOpen ∧
       (OrgA.submit st).editingId = st.editingId ∧
       (OrgA.submit st).formValues = st.formValues) ∧
    (∀ st : OrgState, validateOrganization st.formValues = [] →
       (OrgA.orgCodeDuplicate st.rows st.formValues st.editingId ||
        OrgA.tenantDuplicate st.rows st.formValues st.editingId) = true →
       (OrgA.submit st).rows = st.rows ∧
       (OrgA.submit st).isFormOpen = st.isFormOpen ∧
       (OrgA.submit st).editingId = st.editingId ∧
       (OrgA.submit st).formValues = st.formValues) ∧
    (∀ st : SubState, validateSubsidiary st.formValues ≠ [] →
       (SubB.submit st).rows = st.rows ∧
       (SubB.submit st).isFormOpen = st.isFormOpen ∧
       (SubB.submit st).editingId = st.editingId ∧
       (SubB.submit st).formValues = st.formValues) ∧
    (∀ st : SubState, validateSubsidiary st.formValues = [] →
       SubB.isDuplicate st.rows st.formValues st.editingId = true →
       (SubB.submit st).rows = st.rows ∧
       (SubB.submit st).isFormOpen = st.isFormOpen ∧
       (SubB.submit st).editingId = st.editingId ∧
       (SubB.submit st).formValues = st.formValues) ∧
    (∀ st : LocState, validateLocation st.formValues ≠ [] →
       (LocA.submit st).1.rows = st.rows ∧
       (LocA.submit st).1.isFormOpen = st.isFormOpen ∧
       (LocA.submit st).1.editingId = st.editingId ∧
       (LocA.submit st).1.formValues = st.formValues ∧
       (LocA.submit st).2 = false) ∧
    (∀ st : LocState, validateLocation st.formValues = [] →
       LocA.isDuplicate st.rows st.formValues st.editingId = true →
       (LocA.submit st).1.rows = st.rows ∧
       (LocA.submit st).1.isFormOpen = st.isFormOpen ∧
       (LocA.submit st).1.editingId = st.editingId ∧
       (LocA.submit st).1.formValues = st.formValues ∧
       (LocA.submit st).2 = true) ∧
    (∀ st : DesState, validateDesignation st.formValues ≠ [] →
       (DesB.submit st).rows = st.rows ∧
       (DesB.submit st).isFormOpen = st.isFormOpen ∧
       (DesB.submit st).editingId = st.editingId ∧
       (DesB.submit st).formValues = st.formValues) ∧
    (∀ st : DesState, validateDesignation st.formValues = [] →
       DesB.isDuplicate st.rows st.formValues st.editingId = true →
       (DesB.submit st).rows = st.rows ∧
       (DesB.submit st).isFormOpen = st.isFormOpen ∧
       (DesB.submit st).editingId = st.editingId ∧
       (DesB.submit st).formValues = st.formValues) := by
  refine ⟨?_, ?_, ?_, ?_, ?_, ?_, ?_, ?_⟩
  · intro st h
    cases hv : validateOrganization st.formValues with
    | nil => exact absurd hv h
    | cons a t => simp [OrgA.submit, hv]
  · intro st hv hd
    rcases Bool.or_eq_true_iff.mp hd with h1 | h2
    · simp [OrgA.submit, hv, OrgA.onSubmit, h1]
    · by_cases h1 : OrgA.orgCodeDuplicate st.rows st.formValues st.editingId = true
      · simp [OrgA.submit, hv, OrgA.onSubmit, h1]
      · simp [OrgA.submit, hv, OrgA.onSubmit,
              Bool.eq_false_iff.mpr h1, h2]
  · intro st h
    cases hv : validateSubsidiary st.formValues with
    | nil => exact absurd hv h
    | cons a t => simp [SubB.submit, hv]
  · intro st hv hd
    simp [SubB.submit, hv, SubB.onSubmit, hd]
  · intro st h
    cases hv : validateLocation st.formValues with
    | nil => exact absurd hv h
    | cons a t => simp [LocA.submit, hv]
  · intro st hv hd
    simp [LocA.submit, hv, LocA.onSubmit, hd]
  · intro st h
    cases hv : validateDesignation st.formValues with
    | nil => exact absurd hv h
    | cons a t => simp [DesB.submit, hv]
  · intro st hv hd
    simp [DesB.submit, hv, DesB.onSubmit, hd]

/-- C5 witness: concrete failing submits — empty (required-failing) buffers
and duplicate-key buffers on each page, including the Location duplicate. -/
theorem c5_failed_validation_preserves_state_witness :
    ((OrgA.submit { orgCreateState with formValues := .defaults }).rows =
        ({ orgCreateState with formValues := .defaults } : OrgState).rows ∧
     (OrgA.submit { orgCreateState with formValues := .defaults }).isFormOpen =
        ({ orgCreateState with formValues := .defaults } : OrgState).isFormOpen ∧
     (OrgA.submit { orgCreateState with formValues := .defaults }).editingId =
        ({ orgCreateState with formValues := .defaults } : OrgState).editingId ∧
     (OrgA.submit { orgCreateState with formValues := .defaults }).formValues =
        ({ orgCreateState with formValues := .defaults } : OrgState).formValues) ∧
    ((OrgA.submit orgTenantState).rows = orgTenantState.rows ∧
     (OrgA.submit orgTenantState).isFormOpen = orgTenantState.isFormOpen ∧
     (OrgA.submit orgTenantState).editingId = orgTenantState.editingId ∧
     (OrgA.submit orgTenantState).formValues = orgTenantState.formValues) ∧
    ((LocA.submit locDupState).1.rows = locDupState.rows ∧
     (LocA.submit locDupState).1.isFormOpen = locDupState.isFormOpen ∧
     (LocA.submit locDupState).1.editingId = locDupState.editingId ∧
     (LocA.submit locDupState).1.formValues = locDupState.formValues ∧
     (LocA.submit locDupState).2 = true) ∧
    ((DesB.submit desDupState).rows = desDupState.rows ∧
     (DesB.submit desDupState).isFormOpen = desDupState.isFormOpen ∧
     (DesB.submit desDupState).editingId = desDupState.editingId ∧
     (DesB.submit desDupState).formValues = desDupState.formValues) :=
  ⟨c5_failed_validation_preserves_state.1
      { orgCreateState with formValues := .defaults } (by decide),
   c5_failed_validation_preserves_state.2.1 orgTenantState (by decide) (by decide),
   c5_failed_validation_preserves_state.2.2.2.2.2.1 locDupState (by decide) (by decide),
   c5_failed_validation_preserves_state.2.2.2.2.2.2.2 desDupState (by decide) (by decide)⟩

/-- C6 counterexample: on the Organization page, confirming delete of the
record currently shown in the view modal removes it from the store but
leaves the projection open (still showing the deleted record), contrary to
the claim that the projection is closed on all four pages. -/
theorem c6_org_delete_leaves_view_open :
    (OrgA.handleDelete orgViewingState true 1).rows = [] ∧
    (OrgA.handleDelete orgViewingState true 1).viewOrg = some aalOrg :=
  ⟨by decide, by decide⟩

/-- C6 (amended): on every page, a confirmed delete removes the record
(filters out its id) and, if that record was being edited, closes and
resets the form.  The view projection is additionally closed on the pages
whose delete handler clears it (Designation `DesA`, Location `LocB`,
Subsidiary `SubA`); the Organization page and the `SubB` Subsidiary
revision leave the projection untouched. -/
theorem c6_delete_removes_and_conditionally_closes :
    (∀ (st : OrgState) (i : Nat),
       (OrgA.handleDelete st true i).rows =
         st.rows.filter (fun row => row.id != i) ∧
       (∀ r ∈ (OrgA.handleDelete st true i).rows, r.id ≠ i) ∧
       (OrgA.handleDelete st true i).viewOrg = st.viewOrg ∧
       (st.editingId = some i →
         (OrgA.handleDelete st true i).editingId = none ∧
         (OrgA.handleDelete st true i).isFormOpen = false ∧
         (OrgA.handleDelete st true i).formValues =
           OrganizationFormValues.defaults)) ∧
    (∀ (st : SubState) (i : Nat),
       (SubB.handleDelete st true i).rows =
         st.rows.filter (fun row => row.id != i) ∧
       (∀ r ∈ (SubB.handleDelete st true i).rows, r.id ≠ i) ∧
       (SubB.handleDelete st true i).viewSub = st.viewSub ∧
       (st.editingId = some i →
         (SubB.handleDelete st true i).editingId = none ∧
         (SubB.handleDelete st true i).isFormOpen = false ∧
         (SubB.handleDelete st true i).formValues =
           SubsidiaryFormValues.defaults)) ∧
    (∀ (st : SubState) (i : Nat),
       (SubA.handleDelete st true i).rows =
         st.rows.filter (fun row => row.id != i) ∧
       (∀ r ∈ (SubA.handleDelete st true i).rows, r.id ≠ i) ∧
       (st.editingId = some i →
         (SubA.handleDelete st true i).editingId = none ∧
         (SubA.handleDelete st true i).isFormOpen = false ∧
         (SubA.handleDelete st true i).formValues =
           SubsidiaryFormValues.defaults) ∧
       (∀ v, st.viewSub = some v → v.id = i →
         (SubA.handleDelete st true i).viewSub = none)) ∧
    (∀ (st : LocState) (i : Nat),
       (LocB.handleDelete st true i).rows =
         st.rows.filter (fun row => row.id != i) ∧
       (∀ r ∈ (LocB.handleDelete st true i).rows, r.id ≠ i) ∧
       (st.editingId = some i →
         (LocB.handleDelete st true i).editingId = none ∧
         (LocB.handleDelete st true i).isFormOpen = false ∧
         (LocB.handleDelete st true i).formValues =
           LocationFormValues.defaults) ∧
       (∀ v, st.viewLocation = some v → v.id = i →
         (LocB.handleDelete st true i).viewLocation = none)) ∧
    (∀ (st : DesState) (i : Nat),
       (DesA.handleDelete st true i).rows =
         st.rows.filter (fun row => row.id != i) ∧
       (∀ r ∈ (DesA.handleDelete st true i).rows, r.id ≠ i) ∧
       (st.editingId = some i →
         (DesA.handleDelete st true i).editingId = none ∧
         (DesA.handleDelete st true i).isFormOpen = false ∧
         (DesA.handleDelete st true i).formValues =
           DesignationFormValues.defaults) ∧
       (∀ v, st.viewDesignation = some v → v.id = i →
         (DesA.handleDelete st true i).viewDesignation = none)) := by
  refine ⟨?_, ?_, ?_, ?_, ?_⟩
  · intro st i
    by_cases he : st.editingId = some i <;>
      refine ⟨?_, ?_, ?_, ?_⟩ <;>
        simp [OrgA.handleDelete, he, List.mem_filter]
  · intro st i
    by_cases he : st.editingId = some i <;>
      refine ⟨?_, ?_, ?_, ?_⟩ <;>
        simp [SubB.handleDelete, he, List.mem_filter]
  · intro st i
    rcases hv : st.viewSub with _ | v
    · by_cases he : st.editingId = some i <;>
        refine ⟨?_, ?_, ?_, ?_⟩ <;>
          simp [SubA.handleDelete, he, hv, List.mem_filter]
    · by_cases hvi : v.id = i <;> by_cases he : st.editingId = some i <;>
        refine ⟨?_, ?_, ?_, ?_⟩ <;>
          simp [SubA.handleDelete, he, hv, hvi, List.mem_filter]
  · intro st i
    rcases hv : st.viewLocation with _ | v
    · by_cases he : st.editingId = some i <;>
        refine ⟨?_, ?_, ?_, ?_⟩ <;>
          simp [LocB.handleDelete, he, hv, List.mem_filter]
    · by_cases hvi : v.id = i <;> by_cases he : st.editingId = some i <;>
        refine ⟨?_, ?_, ?_, ?_⟩ <;>
          simp [LocB.handleDelete, he, hv, hvi, List.mem_filter]
  · intro st i
    rcases hv : st.viewDesignation with _ | v
    · by_cases he : st.editingId = some i <;>
        refine ⟨?_, ?_, ?_, ?_⟩ <;>
          simp [DesA.handleDelete, he, hv, List.mem_filter]
    · by_cases hvi : v.id = i <;> by_cases he : st.editingId = some i <;>
        refine ⟨?_, ?_, ?_, ?_⟩ <;>
          simp [DesA.handleDelete, he, hv, hvi, List.mem_filter]

/-- C6 witness: deleting the Organization record being edited removes it
and closes the form, and deleting the Designation record being viewed
(first revision) closes the projection. -/
theorem c6_delete_removes_and_conditionally_closes_witness :
    (OrgA.handleDelete orgEditState true 1).rows =
      orgEditState.rows.filter (fun row => row.id != 1) ∧
    ((OrgA.handleDelete orgEditState true 1).editingId = none ∧
     (OrgA.handleDelete orgEditState true 1).isFormOpen = false ∧
     (OrgA.handleDelete orgEditState true 1).formValues =
       OrganizationFormValues.defaults) ∧
    (DesA.handleDelete { desCreateState with
        viewDesignation := some ⟨1, "DRV", "Driver"⟩ } true 1).viewDesignation =
      none :=
  ⟨(c6_delete_removes_and_conditionally_closes.1 orgEditState 1).1,
   (c6_delete_removes_and_conditionally_closes.1 orgEditState 1).2.2.2 rfl,
   (c6_delete_removes_and_conditionally_closes.2.2.2.2
      { desCreateState with viewDesignation := some ⟨1, "DRV", "Driver"⟩ } 1).2.2.2
      ⟨1, "DRV", "Driver"⟩ rfl rfl⟩

/-- C7: on every page with a duplicate check, the check compares only rows
with `row.id !== editingId`, so when the record being edited is the only
one carrying its key (case-insensitively), re-submitting a buffer with that
same key passes the check and the submit performs the update and closes the
form.  (On LocationPage.tsx additionally no ReferenceError is thrown.) -/
theorem c7_resubmit_own_key_passes :
    (∀ (st : DesState) (r : Designation) (data : DesignationFormValues),
       r ∈ st.rows →
       st.editingId = some r.id →
       jsToLower data.designationCode = jsToLower r.designationCode →
       (∀ s ∈ st.rows, s.id ≠ r.id →
          jsToLower s.designationCode ≠ jsToLower data.designationCode) →
       DesB.isDuplicate st.rows data st.editingId = false ∧
       (DesB.onSubmit st data).rows = st.rows.map (DesA.updRow r.id data) ∧
       (DesB.onSubmit st data).isFormOpen = false) ∧
    (∀ (st : SubState) (r : Subsidiary) (data : SubsidiaryFormValues),
       r ∈ st.rows →
       st.editingId = some r.id →
       jsToLower data.subsidiaryCode = jsToLower r.subsidiaryCode →
       (∀ s ∈ st.rows, s.id ≠ r.id →
          jsToLower s.subsidiaryCode ≠ jsToLower data.subsidiaryCode) →
       SubB.isDuplicate st.rows data st.editingId = false ∧
       (SubB.onSubmit st data).rows = st.rows.map (SubA.updRow r.id data) ∧
       (SubB.onSubmit st data).isFormOpen = false) ∧
    (∀ (st : LocState) (r : Location) (data : LocationFormValues),
       r ∈ st.rows →
       st.editingId = some r.id →
       jsToLower data.locationCode = jsToLower r.locationCode →
       (∀ s ∈ st.rows, s.id ≠ r.id →
          jsToLower s.locationCode ≠ jsToLower data.locationCode) →
       LocA.isDuplicate st.rows data st.editingId = false ∧
       (LocA.onSubmit st data).1.rows = st.rows.map (LocA.updRow r.id data) ∧
       (LocA.onSubmit st data).1.isFormOpen = false ∧
       (LocA.onSubmit st data).2 = false) ∧
    (∀ (st : OrgState) (r : Organization) (data : OrganizationFormValues),
       r ∈ st.rows →
       st.editingId = some r.id →
       jsToLower data.organizationCode = jsToLower r.organizationCode →
       (∀ s ∈ st.rows, s.id ≠ r.id →
          jsToLower s.organizationCode ≠ jsToLower data.organizationCode) →
       (∀ s ∈ st.rows, s.id ≠ r.id →
          jsToLower s.tenantCode ≠ jsToLower data.tenantCode) →
       OrgA.orgCodeDuplicate st.rows data st.editingId = false ∧
       OrgA.tenantDuplicate st.rows data st.editingId = false ∧
       (OrgA.onSubmit st data).rows = st.rows.map (OrgA.updRow r.id data) ∧
       (OrgA.onSubmit st data).isFormOpen = false) := by
  refine ⟨?_, ?_, ?_, ?_⟩
  · intro st r data hmem he hkey hothers
    have hdup : DesB.isDuplicate st.rows data (some r.id) = false := by
      simp only [DesB.isDuplicate, List.any_eq_false]
      intro row hrow
      by_cases hid : row.id = r.id
      · simp [hid]
      · simp [hid, hothers row hrow hid]
    rw [he]
    refine ⟨hdup, ?_, ?_⟩ <;> simp [DesB.onSubmit, he, hdup]
  · intro st r data hmem he hkey hothers
    have hdup : SubB.isDuplicate st.rows data (some r.id) = false := by
      simp only [SubB.isDuplicate, List.any_eq_false]
      intro row hrow
      by_cases hid : row.id = r.id
      · simp [hid]
      · simp [hid, hothers row hrow hid]
    rw [he]
    refine ⟨hdup, ?_, ?_⟩ <;> simp [SubB.onSubmit, he, hdup]
  · intro st r data hmem he hkey hothers
    have hdup : LocA.isDuplicate st.rows data (some r.id) = false := by
      simp only [LocA.isDuplicate, List.any_eq_false]
      intro row hrow
      by_cases hid : row.id = r.id
      · simp [hid]
      · simp [hid, hothers row hrow hid]
    rw [he]
    refine ⟨hdup, ?_, ?_, ?_⟩ <;> simp [LocA.onSubmit, he, hdup]
  · intro st r data hmem he hkey hothers htenant
    have hdup : OrgA.orgCodeDuplicate st.rows data (some r.id) = false := by
      simp only [OrgA.orgCodeDuplicate, List.any_eq_false]
      intro row hrow
      by_cases hid : row.id = r.id
      · simp [hid]
      · simp [hid, hothers row hrow hid]
    have hten : OrgA.tenantDuplicate st.rows data (some r.id) = false := by
      simp only [OrgA.tenantDuplicate, List.any_eq_false]
      intro row hrow
      by_cases hid : row.id = r.id
      · simp [hid]
      · simp [hid, htenant row hrow hid]
    rw [he]
    refine ⟨hdup, hten, ?_, ?_⟩ <;> simp [OrgA.onSubmit, he, hdup, hten]

/-- C7 witness: re-submitting the seed Organization record unchanged while
editing it, and the seed Designation record `DRV` while editing it. -/
theorem c7_resubmit_own_key_passes_witness :
    (OrgA.orgCodeDuplicate orgResubmitState.rows aalOrg.toFormValues
       orgResubmitState.editingId = false ∧
     OrgA.tenantDuplicate orgResubmitState.rows aalOrg.toFormValues
       orgResubmitState.editingId = false ∧
     (OrgA.onSubmit orgResubmitState aalOrg.toFormValues).rows =
       orgResubmitState.rows.map (OrgA.updRow 1 aalOrg.toFormValues) ∧
     (OrgA.onSubmit orgResubmitState aalOrg.toFormValues).isFormOpen = false) ∧
    (DesB.isDuplicate desResubmitState.rows drvBuffer
       desResubmitState.editingId = false ∧
     (DesB.onSubmit desResubmitState drvBuffer).rows =
       desResubmitState.rows.map (DesA.updRow 1 drvBuffer) ∧
     (DesB.onSubmit desResubmitState drvBuffer).isFormOpen = false) :=
  ⟨c7_resubmit_own_key_passes.2.2.2 orgResubmitState aalOrg aalOrg.toFormValues
     (by decide) rfl rfl (by decide) (by decide),
   c7_resubmit_own_key_passes.1 desResubmitState ⟨1, "DRV", "Driver"⟩ drvBuffer
     (by decide) rfl rfl (by decide)⟩

theorem requiredCheck_eq_nil {f m v : String} :
    requiredCheck f m v = [] ↔ v ≠ "" := by
  unfold requiredCheck
  split <;> simp_all

theorem requiredFmtCheck_eq_nil {f rm fm v : String} {ok : String → Bool} :
    requiredFmtCheck f rm ok fm v = [] ↔ (v ≠ "" ∧ ok v = true) := by
  unfold requiredFmtCheck
  split_ifs <;> simp_all

/-- C8: the validators enforce exactly the required-field rules plus the
stated format rules — Organization `emailId` must have email shape,
`contactNumber` must be 8–15 digits, `pinCode` and Location `pincode` must
be 5–6 digits, `subsidiaryCode` is limited to 20 characters, and
Designation has no format rule.  Concretely, a Location pincode `"1234"`
yields exactly a `FormatViolation` on `pincode`, while `"123456"`
validates cleanly. -/
theorem c8_validator_format_rules :
    (∀ b : LocationFormValues,
       validateLocation b = [] ↔
         (b.locationCode ≠ "" ∧ b.locationName ≠ "" ∧ b.regionCode ≠ "" ∧
          b.countryCode ≠ "" ∧ b.stateCode ≠ "" ∧ b.city ≠ "" ∧
          b.pincode ≠ "" ∧ 5 ≤ b.pincode.length ∧ b.pincode.length ≤ 6 ∧
          ∀ c ∈ b.pincode.data, c.isDigit = true)) ∧
    (∀ b : OrganizationFormValues,
       validateOrganization b = [] ↔
         (b.organizationName ≠ "" ∧ b.organizationCode ≠ "" ∧
          b.registrationNumber ≠ "" ∧
          b.emailId ≠ "" ∧ emailShape b.emailId = true ∧
          b.contactNumber ≠ "" ∧ 8 ≤ b.contactNumber.length ∧
          b.contactNumber.length ≤ 15 ∧
          (∀ c ∈ b.contactNumber.data, c.isDigit = true) ∧
          b.addressLine1 ≠ "" ∧ b.city ≠ "" ∧
          b.pinCode ≠ "" ∧ 5 ≤ b.pinCode.length ∧ b.pinCode.length ≤ 6 ∧
          (∀ c ∈ b.pinCode.data, c.isDigit = true) ∧
          b.tenantCode ≠ "" ∧ b.status ≠ "" ∧ b.financialYearStart ≠ "")) ∧
    (∀ b : SubsidiaryFormValues,
       validateSubsidiary b = [] ↔
         (b.subsidiaryName ≠ "" ∧ b.subsidiaryCode ≠ "" ∧
          b.subsidiaryCode.length ≤ 20 ∧ b.subsidiaryDescription ≠ "" ∧
          b.locationCode ≠ "" ∧ b.organizationCode ≠ "")) ∧
    (∀ b : DesignationFormValues,
       validateDesignation b = [] ↔
         (b.designationCode ≠ "" ∧ b.designationName ≠ "")) ∧
    validateLocation shortPincodeBuffer =
      [⟨"pincode", .formatViolation, "Pincode must be 5–6 digits"⟩] ∧
    validateLocation okPincodeBuffer = [] := by
  refine ⟨?_, ?_, ?_, ?_, by decide, by decide⟩
  · intro b
    simp [validateLocation, List.append_eq_nil, requiredCheck_eq_nil,
          requiredFmtCheck_eq_nil, digitsBetween, List.all_eq_true, and_assoc]
  · intro b
    simp [validateOrganization, List.append_eq_nil, requiredCheck_eq_nil,
          requiredFmtCheck_eq_nil, digitsBetween, List.all_eq_true, and_assoc]
  · intro b
    simp [validateSubsidiary, List.append_eq_nil, requiredCheck_eq_nil,
          requiredFmtCheck_eq_nil, and_assoc]
  · intro b
    simp [validateDesignation, List.append_eq_nil, requiredCheck_eq_nil,
          and_assoc]

/-- C9 counterexample: with the same valid buffer (`organizationCode`
`"NEWCO"`, `tenantCode` `"aal"`) and `editingId = null`, the submit outcome
differs between two stores that agree on the natural-key column: over the
seed (tenant `"AAL"`) a `DuplicateKey` error is recorded on `tenantCode`
and the store is unchanged, while over a store whose only difference is
`tenantCode = "OTHER"` the create succeeds.  A rule other than the
natural-key uniqueness check thus depends on the stored records. -/
theorem c9_tenant_rule_depends_on_store :
    validateOrganization tenantClashBuffer = [] ∧
    (OrgA.submit orgTenantState).rows = orgTenantState.rows ∧
    (OrgA.submit orgTenantState).fieldErrors =
      [⟨"tenantCode", .duplicateKey,
        "Tenant Code already exists. It must be unique."⟩] ∧
    (OrgA.submit orgTenantStateAlt).rows =
      orgTenantStateAlt.rows ++
        [OrgA.newRow orgTenantStateAlt.rows tenantClashBuffer] :=
  ⟨by decide, by decide, by decide, by decide⟩

theorem list_any_map {α β : Type} (l : List α) (f : α → β) (p : β → Bool) :
    (l.map f).any p = l.any (fun a => p (f a)) := by
  induction l with
  | nil => rfl
  | cons a t ih => simp [ih]

/-- C9 (amended): for Subsidiary, Location and Designation the duplicate
check on the natural key is the only store-dependent validation — its
outcome depends on the store only through the `(id, lower-cased key)`
column; on the Organization page, however, BOTH `organizationCode` and
`tenantCode` are checked for uniqueness against the store, and the two
checks depend only on the `(id, lower-cased organizationCode, lower-cased
tenantCode)` columns.  (The yup schema validators take only the buffer, so
every other rule is store-independent by construction.) -/
theorem c9_store_dependence_only_via_key_columns :
    (∀ (rows rows' : List Designation) (data : DesignationFormValues)
       (eid : Option Nat),
       rows.map (fun r => (r.id, jsToLower r.designationCode)) =
         rows'.map (fun r => (r.id, jsToLower r.designationCode)) →
       DesB.isDuplicate rows data eid = DesB.isDuplicate rows' data eid) ∧
    (∀ (rows rows' : List Subsidiary) (data : SubsidiaryFormValues)
       (eid : Option Nat),
       rows.map (fun r => (r.id, jsToLower r.subsidiaryCode)) =
         rows'.map (fun r => (r.id, jsToLower r.subsidiaryCode)) →
       SubB.isDuplicate rows data eid = SubB.isDuplicate rows' data eid) ∧
    (∀ (rows rows' : List Location) (data : LocationFormValues)
       (eid : Option Nat),
       rows.map (fun r => (r.id, jsToLower r.locationCode)) =
         rows'.map (fun r => (r.id, jsToLower r.locationCode)) →
       LocA.isDuplicate rows data eid = LocA.isDuplicate rows' data eid) ∧
    (∀ (rows rows' : List Organization) (data : OrganizationFormValues)
       (eid : Option Nat),
       rows.map (fun r =>
           (r.id, jsToLower r.organizationCode, jsToLower r.tenantCode)) =
         rows'.map (fun r =>
           (r.id, jsToLower r.organizationCode, jsToLower r.tenantCode)) →
       OrgA.orgCodeDuplicate rows data eid =
         OrgA.orgCodeDuplicate rows' data eid ∧
       OrgA.tenantDuplicate rows data eid =
         OrgA.tenantDuplicate rows' data eid) := by
  refine ⟨?_, ?_, ?_, ?_⟩
  · intro rows rows' data eid h
    have key : ∀ (l : List Designation),
        DesB.isDuplicate l data eid =
          (l.map (fun r => (r.id, jsToLower r.designationCode))).any
            (fun p => (p.2 == jsToLower data.designationCode) &&
              decide (some p.1 ≠ eid)) := by
      intro l
      rw [list_any_map]
      rfl
    rw [key, key, h]
  · intro rows rows' data eid h
    have key : ∀ (l : List Subsidiary),
        SubB.isDuplicate l data eid =
          (l.map (fun r => (r.id, jsToLower r.subsidiaryCode))).any
            (fun p => (p.2 == jsToLower data.subsidiaryCode) &&
              decide (some p.1 ≠ eid)) := by
      intro l
      rw [list_any_map]
      rfl
    rw [key, key, h]
  · intro rows rows' data eid h
    have key : ∀ (l : List Location),
        LocA.isDuplicate l data eid =
          (l.map (fun r => (r.id, jsToLower r.locationCode))).any
            (fun p => (p.2 == jsToLower data.locationCode) &&
              decide (some p.1 ≠ eid)) := by
      intro l
      rw [list_any_map]
      rfl
    rw [key, key, h]
  · intro rows rows' data eid h
    constructor
    · have key : ∀ (l : List Organization),
          OrgA.orgCodeDuplicate l data eid =
            (l.map (fun r =>
                (r.id, jsToLower r.organizationCode, jsToLower r.tenantCode))).any
              (fun p => (p.2.1 == jsToLower data.organizationCode) &&
                decide (some p.1 ≠ eid)) := by
        intro l
        rw [list_any_map]
        rfl
      rw [key, key, h]
    · have key : ∀ (l : List Organization),
          OrgA.tenantDuplicate l data eid =
            (l.map (fun r =>
                (r.id, jsToLower r.organizationCode, jsToLower r.tenantCode))).any
              (fun p => (p.2.2 == jsToLower data.tenantCode) &&
                decide (some p.1 ≠ eid)) := by
        intro l
        rw [list_any_map]
        rfl
      rw [key, key, h]

/-- C9 witness: two concrete Designation stores whose key columns agree
(codes differing only in case are lower-cased away on the second), and two
Organization stores agreeing on both checked columns. -/
theorem c9_store_dependence_only_via_key_columns_witness :
    (DesB.isDuplicate initialDesignations drvBuffer none =
       DesB.isDuplicate
         [⟨1, "drv", "X"⟩, ⟨2, "sec", "Y"⟩] drvBuffer none) ∧
    (OrgA.orgCodeDuplicate initialOrganizations tenantClashBuffer none =
       OrgA.orgCodeDuplicate
         [{ aalOrg with organizationName := "Renamed" }] tenantClashBuffer none ∧
     OrgA.tenantDuplicate initialOrganizations tenantClashBuffer none =
       OrgA.tenantDuplicate
         [{ aalOrg with organizationName := "Renamed" }] tenantClashBuffer none) :=
  ⟨c9_store_dependence_only_via_key_columns.1 initialDesignations
     [⟨1, "drv", "X"⟩, ⟨2, "sec", "Y"⟩] drvBuffer none (by decide),
   c9_store_dependence_only_via_key_columns.2.2.2 initialOrganizations
     [{ aalOrg with organizationName := "Renamed" }] tenantClashBuffer none
     (by decide)⟩

/-- C10 counterexample: on LocationPage.tsx, clicking Edit while the view
modal shows the seed record opens the edit form without closing the
projection: afterwards the form is open, a record is being edited, and the
view modal still shows the record. -/
theorem c10_edit_leaves_projection_open :
    (LocA.handleEdit locViewingState aalLoc).viewLocation = some aalLoc ∧
    (LocA.handleEdit locViewingState aalLoc).isFormOpen = true ∧
    (LocA.handleEdit locViewingState aalLoc).editingId = some 1 :=
  ⟨by decide, by decide, by decide⟩

/-- C10 (amended): the Edit handler closes the view projection
(`setView...(null)`) on the inline-panel revisions — Location `part_006`,
the first Subsidiary revision, the first Designation revision — and opens
the form in editing state there; on LocationPage.tsx, the second
Designation revision, the Organization page and the second Subsidiary
revision, Edit opens the form but leaves the projection untouched. -/
theorem c10_edit_closes_projection_only_on_inline_pages :
    (∀ (st : LocState) (row : Location),
       (LocB.handleEdit st row).viewLocation = none ∧
       (LocB.handleEdit st row).editingId = some row.id ∧
       (LocB.handleEdit st row).isFormOpen = true) ∧
    (∀ (st : SubState) (row : Subsidiary),
       (SubA.handleEdit st row).viewSub = none ∧
       (SubA.handleEdit st row).editingId = some row.id ∧
       (SubA.handleEdit st row).isFormOpen = true) ∧
    (∀ (st : DesState) (row : Designation),
       (DesA.handleEdit st row).viewDesignation = none ∧
       (DesA.handleEdit st row).editingId = some row.id ∧
       (DesA.handleEdit st row).isFormOpen = true) ∧
    (∀ (st : LocState) (row : Location),
       (LocA.handleEdit st row).viewLocation = st.viewLocation ∧
       (LocA.handleEdit st row).editingId = some row.id ∧
       (LocA.handleEdit st row).isFormOpen = true) ∧
    (∀ (st : DesState) (row : Designation),
       (DesB.handleEdit st row).viewDesignation = st.viewDesignation ∧
       (DesB.handleEdit st row).editingId = some row.id ∧
       (DesB.handleEdit st row).isFormOpen = true) ∧
    (∀ (st : OrgState) (row : Organization),
       (OrgA.handleEdit st row).viewOrg = st.viewOrg ∧
       (OrgA.handleEdit st row).editingId = some row.id ∧
       (OrgA.handleEdit st row).isFormOpen = true) ∧
    (∀ (st : SubState) (row : Subsidiary),
       (SubB.handleEdit st row).viewSub = st.viewSub ∧
       (SubB.handleEdit st row).editingId = some row.id ∧
       (SubB.handleEdit st row).isFormOpen = true) := by
  refine ⟨?_, ?_, ?_, ?_, ?_, ?_, ?_⟩ <;>
    intro st row <;>
      refine ⟨?_, ?_, ?_⟩ <;>
        first
          | (simp only [LocB.handleEdit]; split <;> rfl)
          | (simp only [SubA.handleEdit]; split <;> rfl)
          | (simp only [DesA.handleEdit]; split <;> rfl)
          | (simp only [LocA.handleEdit]; split <;> rfl)
          | (simp only [DesB.handleEdit]; split <;> rfl)
          | (simp only [OrgA.handleEdit]; split <;> rfl)
          | (simp only [SubB.handleEdit]; split <;> rfl)
